import Mathlib

/-!
Verification of the inter-process RPC bridge (`ClientServer`) of the
app-bricks repository.  The bridge implementation module
(`arduino/app_utils/bridge.py`) is not part of the source tree available
here; only its unit and integration tests are.  The definitions below are
therefore modelled from the specification (sections 3-7 of the design
document), with the observable strings and dispatch behaviour pinned down
by the assertions of the in-tree test-suite
(`tests/arduino/app_utils/bridge/`).

Observable side effects (socket writes, log lines, pending-callback
invocations, `$/register` calls issued, readiness signalling) are made
explicit as an `Effect` trace, mirroring exactly what the mocked tests
observe (`_send_bytes`, `logger.warning`/`logger.error`, the
`(on_result, on_error)` callback pairs, the mocked `call`).
-/

namespace Bridge

/-- Modelled from the spec: a decoded MessagePack value as it appears in
bridge messages (`None`, booleans, integers, text strings, byte strings,
arrays).  Python tuples and lists both decode to `arr`. -/
inductive Value where
  | nil
  | bool (b : Bool)
  | int (n : Int)
  | str (s : String)
  | bytes (s : String)
  | arr (elems : List Value)

/-- Modelled from the spec: the generic-failure error code of the
`[code, message]` wire error payload.  The concrete numeric value is not
pinned by the spec; only its distinctness from
`ROUTE_ALREADY_EXISTS_ERR` matters. -/
def GENERIC_ERR : Int := 1

/-- Modelled from the spec: the reserved "route already exists" sentinel
error code, consumed specially by response handling for `$/register`
idempotency. -/
def ROUTE_ALREADY_EXISTS_ERR : Int := 2

/-- Modelled from the spec: the error argument of a response the bridge
itself sends for an incoming request: either a `NameError`-kind failure
("method not found") or a generic exception raised by a local handler,
carried as its stringified message. -/
inductive PyError where
  | nameError (msg : String)
  | excError (msg : String)

/-- Modelled from the spec: the payload handed to a pending call's
`on_error` callback: either the `[code, message]` wire error array of an
error response, or a `ConnectionError` raised on connection loss. -/
inductive ErrPayload where
  | wire (err : Value)
  | connLost (msg : String)

/-- Modelled from the spec: a locally provided handler.  Application of a
handler either returns a value or raises an exception, modelled as the
exception's stringified message. -/
abbrev Handler := List Value → Except String Value

/-- Modelled from the spec: one observable side effect of the bridge, as
seen by the mocked unit tests: a log line, a socket write, a response
sent for an incoming request, a local handler invocation, a pending-call
callback invocation, a `$/register` call issued, or the connected flag
being signalled. -/
inductive Effect where
  | logWarning (msg : String)
  | logError (msg : String)
  | sendBytes (msg : Value)
  | sendResponse (msgid : Value) (error : Option PyError) (result : Value)
  | handlerInvoked (method : String) (params : List Value)
  | invokeResult (msgid : Int) (result : Value)
  | invokeError (msgid : Int) (err : ErrPayload)
  | registerCall (method : String)
  | signalReady

/-- Modelled from the spec: the parsed peer address: a TCP host:port pair
or a Unix domain socket path. -/
inductive PeerAddr where
  | tcp (host : String) (port : Nat)
  | unixPath (path : String)

/-- Modelled from the spec: the state of a `ClientServer` bridge instance:
the address it was constructed with, the parsed socket family and peer
address, the monotonic `next_msgid` counter, the Pending Call Table
(`callbacks`, keyed by msgid; the callback pair itself is observed
through `Effect.invokeResult`/`Effect.invokeError`), and the Handler
Registry (`handlers`). -/
structure ClientState where
  address : String
  socket_type : String
  peer_addr : Option PeerAddr
  nextMsgid : Int
  callbacks : List Int
  handlers : List (String × Handler)

/-- Strip a prefix from a character list, returning the remainder when
the prefix matches. -/
def dropPrefixChars : List Char → List Char → Option (List Char)
  | [], s => some s
  | _, [] => none
  | p :: ps, c :: cs => if c = p then dropPrefixChars ps cs else none

/-- Split a character list at its last colon (Python
`rsplit(":", 1)`). -/
def splitLastColon : List Char → Option (List Char × List Char)
  | [] => none
  | c :: rest =>
    match splitLastColon rest with
    | some (a, b) => some (c :: a, b)
    | none => if c = ':' then some ([], rest) else none

/-- Accumulate the decimal digits of a port number. -/
def parseDigitsAux : Nat → List Char → Option Nat
  | acc, [] => some acc
  | acc, c :: cs =>
    if c.isDigit then parseDigitsAux (acc * 10 + (c.toNat - 48)) cs else none

/-- Parse a non-empty all-digit character list as a decimal number. -/
def parseDigits : List Char → Option Nat
  | [] => none
  | c :: cs => parseDigitsAux 0 (c :: cs)

/-- Modelled from the spec: `tcp://<host>:<port>` or `unix://<path>`,
parsed once at construction to select socket family and peer address. -/
def parseAddress (address : String) : Option (String × PeerAddr) :=
  match dropPrefixChars "tcp://".data address.data with
  | some rest =>
    match splitLastColon rest with
    | some (host, port) =>
      match parseDigits port with
      | some p => some ("tcp", .tcp (String.mk host) p)
      | none => none
    | none => none
  | none =>
    match dropPrefixChars "unix://".data address.data with
    | some rest => some ("unix", .unixPath (String.mk rest))
    | none => none

/-- Modelled from the spec: the freshly initialized state of a bridge
constructed against `address`: empty Pending Call Table, empty Handler
Registry, msgid counter at zero. -/
def initClientServer (address : String) : ClientState :=
  match parseAddress address with
  | some (ty, peer) =>
    { address := address, socket_type := ty, peer_addr := some peer,
      nextMsgid := 0, callbacks := [], handlers := [] }
  | none =>
    { address := address, socket_type := "", peer_addr := none,
      nextMsgid := 0, callbacks := [], handlers := [] }

/-- Modelled from the spec: the class-level `_instance` attribute holding
the process-wide shared `ClientServer` instance. -/
structure ClientServerClass where
  _instance : Option ClientState

/-- Modelled from the spec: constructing a `ClientServer` reuses the
process-wide shared instance stored in the class attribute `_instance`
when one exists; otherwise a fresh instance is created from `address`
and stored there. -/
def constructClientServer (cls : ClientServerClass) (address : String) :
    ClientState × ClientServerClass :=
  match cls._instance with
  | some inst => (inst, cls)
  | none =>
    let inst := initClientServer address
    (inst, ⟨some inst⟩)

/-- Method names arrive on the wire as text strings or byte strings and
must be treated identically; anything else never matches a registry
entry. -/
def methodName : Value → Option String
  | .str s => some s
  | .bytes s => some s
  | _ => none

/-- Rendering of a value inside a log line, as Python string formatting
would produce for the cases the tests exercise (integers). -/
def renderValue : Value → String
  | .nil => "None"
  | .bool true => "True"
  | .bool false => "False"
  | .int n => toString n
  | .str s => s
  | .bytes s => s
  | .arr _ => "[...]"

/-- Handler Registry lookup (Python `dict` lookup by method name). -/
def lookupHandler (name : String) : List (String × Handler) → Option Handler
  | [] => none
  | (n, f) :: rest => if n = name then some f else lookupHandler name rest

/-- Handler Registry insertion (Python `dict` assignment): overwrites the
entry under `name` when present, appends otherwise. -/
def insertHandler (name : String) (f : Handler) :
    List (String × Handler) → List (String × Handler)
  | [] => [(name, f)]
  | (n, g) :: rest =>
    if n = name then (name, f) :: rest else (n, g) :: insertHandler name f rest

/-- Handler Registry removal (Python `dict` deletion by key). -/
def removeHandler (name : String) :
    List (String × Handler) → List (String × Handler)
  | [] => []
  | (n, g) :: rest =>
    if n = name then rest else (n, g) :: removeHandler name rest

/-- Pending Call Table removal (Python `dict.pop` of a msgid key). -/
def removeKey (mid : Int) : List Int → List Int
  | [] => []
  | x :: xs => if x = mid then xs else x :: removeKey mid xs

/-- The msgid key a response refers to: only an integer msgid can ever be
present in the Pending Call Table. -/
def pendingKey : Value → Option Int
  | .int n => some n
  | _ => none

/-- Modelled from the spec: the wire encoding of a Request is the
MessagePack array `[0, msgid, method, params]`; the `sendBytes` effect
carries this array (the byte-level MessagePack packing is a bijection on
it and is not modelled). -/
def encode_request (msgid : Int) (method : String) (params : List Value) : Value :=
  .arr [.int 0, .int msgid, .str method, .arr params]

/-- How a matched response resolves a pending call: success with a result
value, or failure with an error payload. -/
inductive Resolution where
  | ok (v : Value)
  | err (p : ErrPayload)

/-- Modelled from the spec: deliver a resolution to the pending call a
response's msgid designates: invoke the matching callback and remove the
entry; a msgid matching no pending entry is logged at warning level and
dropped. -/
def resolvePending (st : ClientState) (msgidV : Value) (res : Resolution) :
    ClientState × List Effect :=
  match pendingKey msgidV with
  | some mid =>
    if mid ∈ st.callbacks then
      ({ st with callbacks := removeKey mid st.callbacks },
       [match res with
        | .ok v => .invokeResult mid v
        | .err p => .invokeError mid p])
    else
      (st, [.logWarning ("Response for unknown msgid " ++ renderValue msgidV ++ " received.")])
  | none =>
    (st, [.logWarning ("Response for unknown msgid " ++ renderValue msgidV ++ " received.")])

/-- Modelled from the spec: dispatch of an incoming Request
`[0, msgid, method, params]` (`rest` is the message without the leading
type tag): shape validation, Handler Registry lookup (byte-string and
text method names treated identically), synchronous handler invocation,
and exactly one response tagged with the incoming msgid. -/
def handleRequest (st : ClientState) (rest : List Value) :
    ClientState × List Effect :=
  match rest with
  | [msgid, method, params] =>
    match params with
    | .arr ps =>
      match methodName method with
      | some s =>
        match lookupHandler s st.handlers with
        | some f =>
          match f ps with
          | .ok r =>
            (st, [.handlerInvoked s ps, .sendResponse msgid none r])
          | .error e =>
            (st, [.handlerInvoked s ps, .sendResponse msgid (some (.excError e)) .nil])
        | none =>
          (st, [.sendResponse msgid (some (.nameError ("Method " ++ s ++ " not found"))) .nil])
      | none =>
        (st, [.sendResponse msgid (some (.nameError ("Method " ++ renderValue method ++ " not found"))) .nil])
    | _ =>
      (st, [.logError "Message validation error: Invalid RPC request params: expected array or tuple"])
  | other =>
    (st, [.logError ("Message validation error: Invalid RPC request: expected length 4, got "
            ++ toString (other.length + 1))])

/-- Modelled from the spec: dispatch of an incoming Response
`[1, msgid, error, result]`: shape validation of the error field, then
resolution of the matching pending call; a non-null error resolves the
call as an error, except the reserved "route already exists" code which
resolves it as success with `None`. -/
def handleResponse (st : ClientState) (rest : List Value) :
    ClientState × List Effect :=
  match rest with
  | [msgidV, error, result] =>
    match error with
    | .nil => resolvePending st msgidV (.ok result)
    | .arr (.int code :: es) =>
      if code = ROUTE_ALREADY_EXISTS_ERR then
        resolvePending st msgidV (.ok .nil)
      else
        resolvePending st msgidV (.err (.wire (.arr (.int code :: es))))
    | .arr es => resolvePending st msgidV (.err (.wire (.arr es)))
    | _ =>
      (st, [.logError "Message validation error: Invalid error format in RPC response"])
  | other =>
    (st, [.logError ("Message validation error: Invalid RPC response: expected length 4, got "
            ++ toString (other.length + 1))])

/-- Modelled from the spec: dispatch of an incoming Notification
`[2, method, params]`: shape validation, Handler Registry lookup, handler
invocation with the return value discarded; never sends a response. -/
def handleNotification (st : ClientState) (rest : List Value) :
    ClientState × List Effect :=
  match rest with
  | [method, params] =>
    match params with
    | .arr ps =>
      match methodName method with
      | some s =>
        match lookupHandler s st.handlers with
        | some f =>
          match f ps with
          | .ok _ => (st, [.handlerInvoked s ps])
          | .error e =>
            (st, [.handlerInvoked s ps,
                  .logError ("Error running handler for " ++ s ++ ": " ++ e)])
        | none => (st, [.logWarning ("No handler for notification " ++ s)])
      | none => (st, [.logWarning ("No handler for notification " ++ renderValue method)])
    | _ =>
      (st, [.logError "Message validation error: Invalid RPC notification params: expected array or tuple"])
  | other =>
    (st, [.logError ("Message validation error: Invalid RPC notification: expected length 3, got "
            ++ toString (other.length + 1))])

/-- Modelled from the spec: `_handle_msg`, the message dispatcher: given
one decoded value, validate the top-level shape and the type tag and
route to the request, response or notification handler; violations are
logged and the message is dropped without killing the connection. -/
def handle_msg (st : ClientState) (msg : Value) : ClientState × List Effect :=
  match msg with
  | .arr (.int tag :: rest) =>
    if tag = 0 then handleRequest st rest
    else if tag = 1 then handleResponse st rest
    else if tag = 2 then handleNotification st rest
    else (st, [.logWarning ("Invalid RPC message type received: " ++ toString tag)])
  | .arr (mtype :: _) =>
    (st, [.logWarning ("Invalid RPC message type received: " ++ renderValue mtype)])
  | _ =>
    (st, [.logWarning "Invalid RPC message received (must be a non-empty list)."])

/-- The receive loop: each fully decoded value is handed to the
dispatcher in arrival order; effects accumulate. -/
def processIncoming (st : ClientState) : List Value → ClientState × List Effect
  | [] => (st, [])
  | m :: ms =>
    let p := handle_msg st m
    let q := processIncoming p.1 ms
    (q.1, p.2 ++ q.2)

/-- Scan the effect trace for the first callback invocation addressed to
`msgid`: this is what the completion signal a `call` blocks on
observes. -/
def findResolution (msgid : Int) : List Effect → Option Resolution
  | [] => none
  | .invokeResult m v :: rest =>
    if m = msgid then some (.ok v) else findResolution msgid rest
  | .invokeError m p :: rest =>
    if m = msgid then some (.err p) else findResolution msgid rest
  | _ :: rest => findResolution msgid rest

/-- The message string of a `[code, message]` wire error payload. -/
def errMessage : Value → String
  | .arr [_, .str m] => m
  | _ => ""

/-- The outcome `call` delivers to its caller: the decoded result on
success, a `TimeoutError`, a `ValueError`-class exception carrying the
peer's error message, or a `ConnectionError` on connection loss. -/
inductive CallOutcome where
  | ok (result : Value)
  | timeoutError
  | valueError (msg : String)
  | connectionError (msg : String)

/-- Modelled from the spec: `call(method, *params, timeout)`: allocate the
next msgid, register the completion callbacks in the Pending Call Table,
send the encoded Request, then block until the callbacks resolve or the
timeout elapses.  The messages the receive thread delivers during the
wait window are passed as `arriving`; delivering none of consequence
models the timeout, on which the pending entry is abandoned. -/
def call (st : ClientState) (method : String) (params : List Value)
    (arriving : List Value) : ClientState × List Effect × CallOutcome :=
  let msgid := st.nextMsgid + 1
  let st1 : ClientState := { st with nextMsgid := msgid, callbacks := msgid :: st.callbacks }
  let req := Effect.sendBytes (encode_request msgid method params)
  let p := processIncoming st1 arriving
  match findResolution msgid p.2 with
  | some (.ok v) => (p.1, req :: p.2, .ok v)
  | some (.err (.wire e)) => (p.1, req :: p.2, .valueError (errMessage e))
  | some (.err (.connLost m)) => (p.1, req :: p.2, .connectionError m)
  | none =>
    ({ p.1 with callbacks := removeKey msgid p.1.callbacks }, req :: p.2, .timeoutError)

/-- Modelled from the spec: `_fail_pending_callbacks`: on connection loss
every entry of the Pending Call Table has its `on_error` invoked with
the connection-lost error and the table is cleared. -/
def fail_pending_callbacks (st : ClientState) (reason : String) :
    ClientState × List Effect :=
  ({ st with callbacks := [] },
   st.callbacks.map fun m => .invokeError m (.connLost reason))

/-- Modelled from the spec: a Python value passed as the handler argument
of `provide`: either callable or not. -/
inductive PyVal where
  | callable (f : Handler)
  | notCallable (repr : String)

/-- Modelled from the spec: the `ValueError`-class error `provide` raises
synchronously for a non-callable handler argument. -/
inductive ProvideError where
  | valueError (msg : String)

/-- Modelled from the spec: `provide(name, fn)`: raise a `ValueError`
before anything is sent when `fn` is not callable; otherwise register
`fn` under `name` (overwriting any existing entry) and issue
`call("$/register", name)` (observed as a `registerCall` effect, the
granularity at which the unit tests mock `call`). -/
def provide (st : ClientState) (name : String) (fn : PyVal) :
    ClientState × List Effect × Option ProvideError :=
  match fn with
  | .notCallable _ =>
    (st, [], some (.valueError "Provided handler must be a callable function"))
  | .callable f =>
    ({ st with handlers := insertHandler name f st.handlers },
     [.registerCall name], none)

/-- Modelled from the spec: on reaching the connected state, every entry
currently in the Handler Registry is announced to the peer again via
`call("$/register", name)`. -/
def register_methods_on_reconnect (st : ClientState) : List Effect :=
  st.handlers.map fun p => .registerCall p.1

/-- Modelled from the spec: `_connect` reaching the connected state:
re-announce every Handler Registry entry, then signal readiness to
callers waiting on the connected flag. -/
def connect (st : ClientState) : ClientState × List Effect :=
  (st, register_methods_on_reconnect st ++ [.signalReady])

/-- Modelled from the spec: a full disconnect-reconnect cycle: fail every
pending call with the connection-lost error and clear the table, then
re-establish the connection, re-register the handlers and signal
readiness. -/
def reconnectCycle (st : ClientState) (reason : String) :
    ClientState × List Effect :=
  let p := fail_pending_callbacks st reason
  let q := connect p.1
  (q.1, p.2 ++ q.2)

/-- Whether an effect is an error-level log line. -/
def isLogErrorEffect : Effect → Bool
  | .logError _ => true
  | _ => false

/-- Whether an effect is the connection-lost `on_error` invocation of the
pending call `mid`. -/
def isConnLostErrorFor (mid : Int) (reason : String) : Effect → Bool
  | .invokeError m (.connLost r) => m == mid && r == reason
  | _ => false

/-- Whether an effect is a `$/register` call for `name`. -/
def isRegisterCallFor (name : String) : Effect → Bool
  | .registerCall n => n == name
  | _ => false

/-- Whether an effect is the readiness signal. -/
def isReadySignal : Effect → Bool
  | .signalReady => true
  | _ => false

/-- Whether a value is an array. -/
def isArr : Value → Bool
  | .arr _ => true
  | _ => false

/-- A freshly constructed bridge state against the Unix socket address the
integration tests use (no pending calls, no handlers). -/
def stW0 : ClientState :=
  { address := "unix:///tmp/test.sock", socket_type := "unix",
    peer_addr := some (.unixPath "/tmp/test.sock"),
    nextMsgid := 0, callbacks := [], handlers := [] }

/-- The two-argument addition handler of testable property P6: raises a
`TypeError` when applied to anything but two integers, as the Python
`lambda a, b: a + b` would on an arity mismatch. -/
def addHandler : Handler := fun ps =>
  match ps with
  | [.int a, .int b] => .ok (.int (a + b))
  | _ => .error "TypeError: add() takes 2 arguments"

/-- A handler returning a constant string, as `lambda: "test"` of the
reconnection test. -/
def constHandler : Handler := fun _ => .ok (.str "test")

/-- A bridge state with the addition handler provided under `"add"`. -/
def stH : ClientState := { stW0 with handlers := [("add", addHandler)] }

/-- In a duplicate-free list, the number of elements equal to a member is
one. -/
theorem countP_beq_eq_one {α} [DecidableEq α] {l : List α} {a : α}
    (hnd : l.Nodup) (h : a ∈ l) : l.countP (fun x => x == a) = 1 := by
  have := List.count_eq_one_of_mem hnd h
  simpa [List.count] using this

/-- Removing a key from a duplicate-free table removes it entirely. -/
theorem not_mem_removeKey {l : List Int} {a : Int} (hnd : l.Nodup) :
    a ∉ removeKey a l := by
  induction l with
  | nil => simp [removeKey]
  | cons x xs ih =>
    rcases List.nodup_cons.mp hnd with ⟨hx, hxs⟩
    rw [removeKey]
    by_cases h : x = a
    · subst h
      simpa using hx
    · rw [if_neg h]
      intro hm
      rcases List.mem_cons.mp hm with rfl | hm2
      · exact h rfl
      · exact ih hxs hm2

/-- Registry lookup after insertion under the same name yields the new
handler. -/
theorem lookupHandler_insert_self (name : String) (f : Handler)
    (hs : List (String × Handler)) :
    lookupHandler name (insertHandler name f hs) = some f := by
  induction hs with
  | nil => simp [insertHandler, lookupHandler]
  | cons p rest ih =>
    by_cases h : p.1 = name
    · simp [insertHandler, h, lookupHandler]
    · simp [insertHandler, h, lookupHandler, ih]

/-- Registry lookup under a different name is unaffected by insertion. -/
theorem lookupHandler_insert_other (name other : String) (f : Handler)
    (hs : List (String × Handler)) (h : other ≠ name) :
    lookupHandler other (insertHandler name f hs) = lookupHandler other hs := by
  induction hs with
  | nil => simp [insertHandler, lookupHandler, Ne.symm h]
  | cons p rest ih =>
    by_cases hp : p.1 = name
    · simp [insertHandler, hp, lookupHandler, Ne.symm h]
    · simp [insertHandler, hp, lookupHandler, ih]

/-- A request message of any arity other than four is rejected with the
arity validation error. -/
theorem handleRequest_wrong_arity :
    ∀ (st : ClientState) (rest : List Value), rest.length ≠ 3 →
    handleRequest st rest =
      (st, [.logError ("Message validation error: Invalid RPC request: expected length 4, got "
              ++ toString (rest.length + 1))])
  | _, [], _ => rfl
  | _, [_], _ => rfl
  | _, [_, _], _ => rfl
  | _, [_, _, _], h => absurd rfl h
  | _, _ :: _ :: _ :: _ :: _, _ => rfl

/-- A response message of any arity other than four is rejected with the
arity validation error. -/
theorem handleResponse_wrong_arity :
    ∀ (st : ClientState) (rest : List Value), rest.length ≠ 3 →
    handleResponse st rest =
      (st, [.logError ("Message validation error: Invalid RPC response: expected length 4, got "
              ++ toString (rest.length + 1))])
  | _, [], _ => rfl
  | _, [_], _ => rfl
  | _, [_, _], _ => rfl
  | _, [_, _, _], h => absurd rfl h
  | _, _ :: _ :: _ :: _ :: _, _ => rfl

/-- A notification message of any arity other than three is rejected with
the arity validation error. -/
theorem handleNotification_wrong_arity :
    ∀ (st : ClientState) (rest : List Value), rest.length ≠ 2 →
    handleNotification st rest =
      (st, [.logError ("Message validation error: Invalid RPC notification: expected length 3, got "
              ++ toString (rest.length + 1))])
  | _, [], _ => rfl
  | _, [_], _ => rfl
  | _, [_, _], h => absurd rfl h
  | _, _ :: _ :: _ :: _, _ => rfl

/-- Claim C7: `call(method, *params, timeout=t)` raises a `TimeoutError`
to its caller when no response for its msgid arrives within the timeout
(modelled as the receive thread delivering nothing of consequence), and
this timeout does not affect any other pending call: the Pending Call
Table afterwards is exactly what it was before the call, and the only
effect produced is the request's own socket write. -/
theorem call_timeout_isolated (st : ClientState) (method : String)
    (params : List Value) :
    (call st method params []).2.2 = .timeoutError ∧
    (call st method params []).1.callbacks = st.callbacks ∧
    (call st method params []).2.1 =
      [.sendBytes (encode_request (st.nextMsgid + 1) method params)] := by
  refine ⟨rfl, ?_, rfl⟩
  simp [call, processIncoming, findResolution, removeKey]

/-- Claim C8: when the peer answers a call with the error response
`[1, msgid, [GENERIC_ERR, message], null]`, `call` raises a
`ValueError`-class exception to its caller carrying the peer's error
message string. -/
theorem call_error_propagation (st : ClientState) (method : String)
    (params : List Value) (emsg : String) :
    (call st method params
      [.arr [.int 1, .int (st.nextMsgid + 1),
             .arr [.int GENERIC_ERR, .str emsg], .nil]]).2.2 =
      .valueError emsg := by
  simp [call, processIncoming, handle_msg, handleResponse, resolvePending,
    pendingKey, GENERIC_ERR, ROUTE_ALREADY_EXISTS_ERR, findResolution, errMessage]

/-- Claim C10: the `ClientServer` class keeps a process-wide shared
instance in the class attribute `_instance`: construction with a stored
instance returns that instance unchanged (even against a different
address), construction twice in a row returns the same instance, and a
fresh, independently configured bridge is obtained exactly when
`_instance` has first been reset to `None`. -/
theorem client_server_singleton (st : ClientState) (addr addr2 : String) :
    constructClientServer ⟨some st⟩ addr = (st, ⟨some st⟩) ∧
    constructClientServer ⟨none⟩ addr =
      (initClientServer addr, ⟨some (initClientServer addr)⟩) ∧
    (constructClientServer (constructClientServer ⟨none⟩ addr).2 addr2).1 =
      initClientServer addr := by
  exact ⟨rfl, rfl, rfl⟩

/-- Claim C1: for every method name and parameter tuple (including the
empty tuple), `call` sends the encoded Request `[0, msgid, method,
params]` first, with the freshly allocated msgid (`next_msgid + 1`, the
counter being bumped); when the response `[1, msgid, null, r]` carrying
that exact msgid arrives, `call` returns exactly `r` (including `nil`)
and the pending entry is gone; a response carrying a msgid that matches
no pending call is ignored with a warning and the original call still
times out. -/
theorem call_response_correlation (st : ClientState) (method : String)
    (params : List Value) (r : Value) (wrongid : Int)
    (hw1 : wrongid ≠ st.nextMsgid + 1) (hw2 : wrongid ∉ st.callbacks) :
    (call st method params [.arr [.int 1, .int (st.nextMsgid + 1), .nil, r]]).2.2 = .ok r ∧
    (call st method params [.arr [.int 1, .int (st.nextMsgid + 1), .nil, r]]).2.1.head? =
      some (.sendBytes (encode_request (st.nextMsgid + 1) method params)) ∧
    (call st method params [.arr [.int 1, .int (st.nextMsgid + 1), .nil, r]]).1.callbacks =
      st.callbacks ∧
    (call st method params [.arr [.int 1, .int (st.nextMsgid + 1), .nil, r]]).1.nextMsgid =
      st.nextMsgid + 1 ∧
    (call st method params [.arr [.int 1, .int wrongid, .nil, r]]).2.2 = .timeoutError ∧
    Effect.logWarning ("Response for unknown msgid " ++ toString wrongid ++ " received.")
      ∈ (call st method params [.arr [.int 1, .int wrongid, .nil, r]]).2.1 := by
  refine ⟨?_, ?_, ?_, ?_, ?_, ?_⟩ <;>
    simp [call, processIncoming, handle_msg, handleResponse, resolvePending,
      pendingKey, findResolution, removeKey, renderValue, hw1, hw2]

/-- Witness for C1 at a concrete fresh state: the matching response
resolves the call with the result, the mismatched one leaves it to time
out. -/
theorem call_response_correlation_witness :
    (call stW0 "test_call" [.int 42] [.arr [.int 1, .int 1, .nil, .str "success"]]).2.2 =
      .ok (.str "success") ∧
    (call stW0 "test_call" [.int 42] [.arr [.int 1, .int 9999, .nil, .str "success"]]).2.2 =
      .timeoutError := by
  have h := call_response_correlation stW0 "test_call" [.int 42] (.str "success") 9999
      (by decide) (by decide)
  exact ⟨h.1, h.2.2.2.2.1⟩

/-- Claim C5: for every pending call, a response whose error field is
non-null but whose error code equals the reserved route-already-exists
sentinel resolves the call as success: `on_result` is invoked with
`None` (the response's null result), `on_error` is not invoked (the only
effect is the `on_result` invocation), and the pending entry is
removed. -/
theorem route_exists_resolved_as_success (st : ClientState) (mid : Int)
    (emsg : String) (hmem : mid ∈ st.callbacks) (hnd : st.callbacks.Nodup) :
    handle_msg st (.arr [.int 1, .int mid,
        .arr [.int ROUTE_ALREADY_EXISTS_ERR, .str emsg], .nil]) =
      ({ st with callbacks := removeKey mid st.callbacks },
       [.invokeResult mid .nil]) ∧
    mid ∉ removeKey mid st.callbacks := by
  refine ⟨?_, not_mem_removeKey hnd⟩
  simp [handle_msg, handleResponse, resolvePending, pendingKey, hmem]

/-- Witness for C5 at the pending msgid of the unit test. -/
theorem route_exists_resolved_as_success_witness :
    handle_msg { stW0 with callbacks := [131415] }
      (.arr [.int 1, .int 131415,
             .arr [.int ROUTE_ALREADY_EXISTS_ERR, .str "Method already exists"], .nil]) =
      ({ stW0 with callbacks := [] }, [.invokeResult 131415 .nil]) := by
  have h := route_exists_resolved_as_success { stW0 with callbacks := [131415] }
      131415 "Method already exists" (by simp) (by simp)
  simpa [removeKey] using h.1

/-- Claim C2: for every incoming request `[0, msgid, method, params]`
with `method` (byte-string or text) in the Handler Registry, the handler
is invoked synchronously with the params and exactly one response tagged
with the incoming msgid is sent back: `(error=null, result=return
value)` on success, `(error=generic failure from the raised exception,
result=null)` on a raise; for an unregistered method, exactly one
`NameError`-kind error response tagged with the incoming msgid and with
null result is sent. -/
theorem request_dispatch (st : ClientState) (name1 : String) (f : Handler)
    (name2 : String)
    (h1 : lookupHandler name1 st.handlers = some f)
    (h2 : lookupHandler name2 st.handlers = none) :
    (∀ msgid ps r, f ps = .ok r →
      handle_msg st (.arr [.int 0, msgid, .str name1, .arr ps]) =
        (st, [.handlerInvoked name1 ps, .sendResponse msgid none r]) ∧
      handle_msg st (.arr [.int 0, msgid, .bytes name1, .arr ps]) =
        (st, [.handlerInvoked name1 ps, .sendResponse msgid none r])) ∧
    (∀ msgid ps e, f ps = .error e →
      handle_msg st (.arr [.int 0, msgid, .str name1, .arr ps]) =
        (st, [.handlerInvoked name1 ps,
              .sendResponse msgid (some (.excError e)) .nil])) ∧
    (∀ msgid ps,
      handle_msg st (.arr [.int 0, msgid, .str name2, .arr ps]) =
        (st, [.sendResponse msgid
                (some (.nameError ("Method " ++ name2 ++ " not found"))) .nil])) := by
  refine ⟨fun msgid ps r hr => ⟨?_, ?_⟩, fun msgid ps e he => ?_, fun msgid ps => ?_⟩
  · simp [handle_msg, handleRequest, methodName, h1, hr]
  · simp [handle_msg, handleRequest, methodName, h1, hr]
  · simp [handle_msg, handleRequest, methodName, h1, he]
  · simp [handle_msg, handleRequest, methodName, h2]

/-- Witness for C2: the P6 round trip (`add` over `[10, 5]` answered
with `15`, the method name arriving as a byte string), a handler raise,
and an unknown method. -/
theorem request_dispatch_witness :
    handle_msg stH (.arr [.int 0, .int 123, .bytes "add", .arr [.int 10, .int 5]]) =
      (stH, [.handlerInvoked "add" [.int 10, .int 5],
             .sendResponse (.int 123) none (.int 15)]) ∧
    handle_msg stH (.arr [.int 0, .int 111, .str "add", .arr []]) =
      (stH, [.handlerInvoked "add" [],
             .sendResponse (.int 111)
               (some (.excError "TypeError: add() takes 2 arguments")) .nil]) ∧
    handle_msg stH (.arr [.int 0, .int 456, .str "unknown_method", .arr []]) =
      (stH, [.sendResponse (.int 456)
               (some (.nameError "Method unknown_method not found")) .nil]) := by
  have h := request_dispatch stH "add" addHandler "unknown_method" rfl rfl
  exact ⟨(h.1 (.int 123) [.int 10, .int 5] (.int 15) rfl).2,
         h.2.1 (.int 111) [] "TypeError: add() takes 2 arguments" rfl,
         h.2.2 (.int 456) []⟩

/-- Claim C3: whenever the connection is lost while calls are
outstanding, every entry of the Pending Call Table has its `on_error`
invoked exactly once with the connection-lost error, nothing but such
invocations happens, and afterwards the table is empty. -/
theorem disconnect_fails_all_pending (st : ClientState) (reason : String)
    (hnd : st.callbacks.Nodup) :
    (fail_pending_callbacks st reason).1.callbacks = [] ∧
    (∀ mid ∈ st.callbacks,
      (fail_pending_callbacks st reason).2.countP (isConnLostErrorFor mid reason) = 1) ∧
    (∀ e ∈ (fail_pending_callbacks st reason).2,
      ∃ mid ∈ st.callbacks, e = .invokeError mid (.connLost reason)) := by
  refine ⟨rfl, fun mid hm => ?_, fun e he => ?_⟩
  · simp only [fail_pending_callbacks]
    rw [List.countP_map]
    have hfun : (isConnLostErrorFor mid reason ∘
        fun m => Effect.invokeError m (.connLost reason)) = fun m => m == mid := by
      funext m
      simp [Function.comp, isConnLostErrorFor]
    rw [hfun]
    exact countP_beq_eq_one hnd hm
  · simp only [fail_pending_callbacks, List.mem_map] at he
    rcases he with ⟨m, hm, rfl⟩
    exact ⟨m, hm, rfl⟩

/-- Witness for C3: two outstanding calls, both failed exactly once, the
table emptied. -/
theorem disconnect_fails_all_pending_witness :
    (fail_pending_callbacks { stW0 with callbacks := [1, 2] }
      "Connection to router lost.").1.callbacks = [] ∧
    (fail_pending_callbacks { stW0 with callbacks := [1, 2] }
      "Connection to router lost.").2.countP
        (isConnLostErrorFor 1 "Connection to router lost.") = 1 ∧
    (fail_pending_callbacks { stW0 with callbacks := [1, 2] }
      "Connection to router lost.").2.countP
        (isConnLostErrorFor 2 "Connection to router lost.") = 1 := by
  have h := disconnect_fails_all_pending { stW0 with callbacks := [1, 2] }
      "Connection to router lost." (by decide)
  exact ⟨h.1, h.2.1 1 (by decide), h.2.1 2 (by decide)⟩

/-- Claim C4: the Handler Registry persists across a disconnect-reconnect
cycle, and on the transition to the connected state each name currently
registered is announced to the peer by issuing `call("$/register",
name)` again exactly once, all before readiness is signaled to callers
waiting on the connected flag (the readiness signal is the last effect
and occurs exactly once). -/
theorem reconnect_reregisters (st : ClientState) (reason : String)
    (hnd : (st.handlers.map Prod.fst).Nodup) :
    (reconnectCycle st reason).1.handlers = st.handlers ∧
    (∀ name, name ∈ st.handlers.map Prod.fst →
      (reconnectCycle st reason).2.countP (isRegisterCallFor name) = 1) ∧
    (reconnectCycle st reason).2.getLast? = some .signalReady ∧
    (reconnectCycle st reason).2.countP isReadySignal = 1 := by
  refine ⟨rfl, fun name hm => ?_, ?_, ?_⟩
  · simp only [reconnectCycle, fail_pending_callbacks, connect,
      register_methods_on_reconnect]
    rw [List.countP_append, List.countP_append, List.countP_map, List.countP_map]
    have hzero : (isRegisterCallFor name ∘
        fun m => Effect.invokeError m (.connLost reason)) = fun _ => false := by
      funext m
      simp [Function.comp, isRegisterCallFor]
    have hreg : (isRegisterCallFor name ∘
        fun p : String × Handler => Effect.registerCall p.1) =
        fun p : String × Handler => p.1 == name := by
      funext p
      simp [Function.comp, isRegisterCallFor]
    rw [hzero, hreg]
    have hone : st.handlers.countP (fun p => p.1 == name) = 1 := by
      have hmap := List.countP_map (fun x => x == name) Prod.fst st.handlers
      have := countP_beq_eq_one hnd hm
      rw [hmap] at this
      simpa [Function.comp] using this
    simp [isRegisterCallFor, hone]
  · simp only [reconnectCycle, connect, ← List.append_assoc]
    exact List.getLast?_concat _
  · simp only [reconnectCycle, fail_pending_callbacks, connect,
      register_methods_on_reconnect]
    rw [List.countP_append, List.countP_append, List.countP_map, List.countP_map]
    have hz1 : (isReadySignal ∘
        fun m => Effect.invokeError m (.connLost reason)) = fun _ => false := by
      funext m
      simp [Function.comp, isReadySignal]
    have hz2 : (isReadySignal ∘
        fun p : String × Handler => Effect.registerCall p.1) = fun _ => false := by
      funext p
      simp [Function.comp, isReadySignal]
    rw [hz1, hz2]
    simp [isReadySignal]

/-- Witness for C4: one provided handler, re-registered exactly once,
readiness signalled last. -/
theorem reconnect_reregisters_witness :
    (reconnectCycle stH "Connection to router lost.").1.handlers = stH.handlers ∧
    (reconnectCycle stH "Connection to router lost.").2.countP
      (isRegisterCallFor "add") = 1 ∧
    (reconnectCycle stH "Connection to router lost.").2.getLast? = some .signalReady := by
  have h := reconnect_reregisters stH "Connection to router lost." (by decide)
  exact ⟨h.1, h.2.1 "add" (by decide), h.2.2.1⟩

/-- Counterexample to claim C6 as stated: the claim says every
decode-time shape violation, including a decoded value that is not a
non-empty array, is logged at error level; on the empty array the
dispatcher in fact logs at warning level and produces no error-level log
at all (the in-tree test `test_empty_msg` asserts exactly this:
`logger.warning` called, `logger.error` not called). -/
theorem malformed_empty_msg_warning_cex :
    (handle_msg stW0 (.arr [])).2 =
      [.logWarning "Invalid RPC message received (must be a non-empty list)."] ∧
    (handle_msg stW0 (.arr [])).2.any isLogErrorEffect = false :=
  ⟨rfl, rfl⟩

/-- Claim C6 as amended: a decoded value that is not a non-empty array is
logged at warning level; every other decode-time shape violation — a
request/response/notification of the wrong arity, params that are not an
array or tuple, or a response error field that is not array-shaped — is
logged at error level; in every case the message is dropped: the state
is unchanged (the connection stays up and no pending entry is touched),
no handler is invoked and no response is sent for it. -/
theorem malformed_shape_dropped (st : ClientState) :
    (handle_msg st (.arr []) =
      (st, [.logWarning "Invalid RPC message received (must be a non-empty list)."])) ∧
    (∀ v, isArr v = false → handle_msg st v =
      (st, [.logWarning "Invalid RPC message received (must be a non-empty list)."])) ∧
    (∀ rest, rest.length ≠ 3 → handle_msg st (.arr (.int 0 :: rest)) =
      (st, [.logError ("Message validation error: Invalid RPC request: expected length 4, got "
              ++ toString (rest.length + 1))])) ∧
    (∀ rest, rest.length ≠ 3 → handle_msg st (.arr (.int 1 :: rest)) =
      (st, [.logError ("Message validation error: Invalid RPC response: expected length 4, got "
              ++ toString (rest.length + 1))])) ∧
    (∀ rest, rest.length ≠ 2 → handle_msg st (.arr (.int 2 :: rest)) =
      (st, [.logError ("Message validation error: Invalid RPC notification: expected length 3, got "
              ++ toString (rest.length + 1))])) ∧
    (∀ m mv v, isArr v = false → handle_msg st (.arr [.int 0, m, mv, v]) =
      (st, [.logError "Message validation error: Invalid RPC request params: expected array or tuple"])) ∧
    (∀ m v, isArr v = false → handle_msg st (.arr [.int 2, m, v]) =
      (st, [.logError "Message validation error: Invalid RPC notification params: expected array or tuple"])) ∧
    (∀ m v r, isArr v = false → v ≠ .nil → handle_msg st (.arr [.int 1, m, v, r]) =
      (st, [.logError "Message validation error: Invalid error format in RPC response"])) := by
  refine ⟨rfl, fun v hv => ?_, fun rest h => ?_, fun rest h => ?_, fun rest h => ?_,
    fun m mv v hv => ?_, fun m v hv => ?_, fun m v r hv hnil => ?_⟩
  · cases v with
    | arr elems =>
      cases elems with
      | nil => rfl
      | cons x xs => exact absurd hv (by simp [isArr])
    | nil => rfl
    | bool b => rfl
    | int n => rfl
    | str s => rfl
    | bytes s => rfl
  · exact handleRequest_wrong_arity st rest h
  · exact handleResponse_wrong_arity st rest h
  · exact handleNotification_wrong_arity st rest h
  · cases v with
    | arr elems => exact absurd hv (by simp [isArr])
    | nil => rfl
    | bool b => rfl
    | int n => rfl
    | str s => rfl
    | bytes s => rfl
  · cases v with
    | arr elems => exact absurd hv (by simp [isArr])
    | nil => rfl
    | bool b => rfl
    | int n => rfl
    | str s => rfl
    | bytes s => rfl
  · cases v with
    | arr elems => exact absurd hv (by simp [isArr])
    | nil => exact absurd rfl hnil
    | bool b => rfl
    | int n => rfl
    | str s => rfl
    | bytes s => rfl

/-- Witness for the amended C6 at the malformed inputs of the unit
tests: the five-element request, the non-array request params and the
non-array response error field. -/
theorem malformed_shape_dropped_witness :
    handle_msg stW0 (.arr [.int 0, .int 1, .str "method",
        .arr [.int 0, .int 1], .str "extra field"]) =
      (stW0, [.logError "Message validation error: Invalid RPC request: expected length 4, got 5"]) ∧
    handle_msg stW0 (.arr [.int 0, .int 1, .str "method", .int 1]) =
      (stW0, [.logError "Message validation error: Invalid RPC request params: expected array or tuple"]) ∧
    handle_msg stW0 (.arr [.int 1, .int 1, .int 42, .str "result"]) =
      (stW0, [.logError "Message validation error: Invalid error format in RPC response"]) := by
  have h := malformed_shape_dropped stW0
  refine ⟨?_, ?_, ?_⟩
  · exact h.2.2.1 [.int 1, .str "method", .arr [.int 0, .int 1], .str "extra field"] (by decide)
  · exact h.2.2.2.2.2.1 (.int 1) (.str "method") (.int 1) rfl
  · exact h.2.2.2.2.2.2.2 (.int 1) (.int 42) (.str "result") rfl
      (fun hh => Value.noConfusion hh)

/-- Claim C9: `provide(name, fn)` raises a `ValueError`-class error
synchronously, before anything is sent on the wire (no effect is
produced), if and only if `fn` is not callable; otherwise it registers
`fn` in the Handler Registry under `name` — overwriting any existing
entry for `name`, leaving every other name's entry unchanged — and
issues `call("$/register", name)` against the peer. -/
theorem provide_callable_check (st : ClientState) (name : String) :
    (∀ r, provide st name (.notCallable r) =
      (st, [], some (.valueError "Provided handler must be a callable function"))) ∧
    (∀ f, (provide st name (.callable f)).2.2 = none ∧
      (provide st name (.callable f)).2.1 = [.registerCall name] ∧
      lookupHandler name (provide st name (.callable f)).1.handlers = some f ∧
      ∀ other, other ≠ name →
        lookupHandler other (provide st name (.callable f)).1.handlers =
          lookupHandler other st.handlers) := by
  refine ⟨fun r => rfl, fun f => ⟨rfl, rfl, ?_, fun other ho => ?_⟩⟩
  · simpa [provide] using lookupHandler_insert_self name f st.handlers
  · simpa [provide] using lookupHandler_insert_other name other f st.handlers ho

/-- Witness for C9: the non-callable raise, and re-providing under an
already-provided name overwriting the entry while still issuing a
`$/register` call and leaving other names' lookups unchanged. -/
theorem provide_callable_check_witness :
    (provide stH "bad_handler" (.notCallable "not a function")).2.2 =
      some (.valueError "Provided handler must be a callable function") ∧
    (provide stH "add" (.callable constHandler)).2.1 = [.registerCall "add"] ∧
    lookupHandler "add" (provide stH "add" (.callable constHandler)).1.handlers =
      some constHandler ∧
    lookupHandler "other" (provide stH "add" (.callable constHandler)).1.handlers =
      lookupHandler "other" stH.handlers := by
  have h := provide_callable_check stH "add"
  have h0 := provide_callable_check stH "bad_handler"
  refine ⟨?_, (h.2 constHandler).2.1, (h.2 constHandler).2.2.1,
    (h.2 constHandler).2.2.2 "other" (by decide)⟩
  rw [h0.1 "not a function"]

end Bridge
